import Mathlib

/-
Verification of the Flow2API auto-sync userscripts.

The repository ships two Tampermonkey userscripts in src/tampermonkey.js:
a v1.2 script (cookie harvest + token sync + keep-alive reload) and a
v1.5 script that additionally automates the Google login flow (page
routing, an interstitial-signin click handler, an account-chooser click,
and humanized password typing guarded by a global typing lock).

This file gives a shallow embedding of the script logic as pure Lean
functions.  Browser effects (DOM queries, clicks, event dispatch, log
calls, HTTP requests, timers) are reified as action lists; randomness
(Math.random-derived delays and jitter) is passed in as explicit
parameters; the DOM, the cookie jar and HTTP responses are explicit
values.  Each definition mirrors one function (or one top-level block)
of the source.
-/

namespace Flow2API

/-! ## Humanized input simulator: typeStringSimulate (v1.5 lines 244-267)

The field value is a String; each synthetic DOM event records its kind
and its bubbles flag (the source always constructs events with
bubbles set to true).  The per-character random delay
Math.floor(Math.random() * 100) + 50 is modelled by a function
delay : Nat -> Nat giving the draw used before the i-th character. -/

/-- A synthetic DOM event dispatched via element.dispatchEvent. -/
structure DomEvent where
  kind : String
  bubbles : Bool
deriving DecidableEq, Repr

/-- The event new Event('input', bubbles true) dispatched after each character. -/
def inputEvent : DomEvent := ⟨"input", true⟩

/-- The event new Event('change', bubbles true) dispatched after the last character. -/
def changeEvent : DomEvent := ⟨"change", true⟩

/-- Result of one run of the simulator: the field's final value, the
dispatched events in order, and the summed sleep time of the keystroke
delays. -/
structure TypeResult where
  finalValue : String
  events : List DomEvent
  totalDelay : Nat
deriving DecidableEq, Repr

/-- The for-loop of typeStringSimulate: for each remaining character,
read the current value, sleep the drawn delay, write value ++ char via
the native setter, dispatch a bubbling input event.  Returns the final
field value, the input events, and the summed delay. -/
def typeCharsSim (delay : Nat → Nat) : Nat → String → List Char → String × List DomEvent × Nat
  | _, v, [] => (v, [], 0)
  | i, v, c :: cs =>
    let r := typeCharsSim delay (i + 1) (v.push c) cs
    (r.1, inputEvent :: r.2.1, delay i + r.2.2)

/-- typeStringSimulate(element, text): run the per-character loop over
text starting from the field's current value, then dispatch one
bubbling change event. -/
def typeStringSimulate (delay : Nat → Nat) (element : String) (text : String) : TypeResult :=
  ⟨(typeCharsSim delay 0 element text.data).1,
   (typeCharsSim delay 0 element text.data).2.1 ++ [changeEvent],
   (typeCharsSim delay 0 element text.data).2.2⟩

/-- Number of dispatched events of a given kind. -/
def countKind (k : String) (evs : List DomEvent) : Nat :=
  (evs.filter (fun e => e.kind = k)).length

/-! ## Login state machine: tryAttemptLogin (v1.5 lines 191-241)

One poll tick of the accounts.google.com handler.  The DOM snapshot
records which selectors match; the tick returns the new lock state and
the ordered list of effects it performs.  The random post-type jitter
Math.random() * 500 is the jitter parameter. -/

/-- DOM snapshot seen by one tick on accounts.google.com. -/
structure AccountsDom where
  /-- selector ul li:first-child div[role=link] matches -/
  accountItem : Bool
  /-- selector input[name=Passwd] matches -/
  passwordInput : Bool
  /-- passwordInput.offsetParent is non-null -/
  passwordVisible : Bool
  /-- passwordInput.value -/
  passwordValue : String
  /-- selector passwordNext matches -/
  nextButton : Bool
deriving DecidableEq, Repr

/-- The global isTyping lock (v1.5 line 191). -/
structure LoginState where
  isTyping : Bool
deriving DecidableEq, Repr

/-- Effects a tick of tryAttemptLogin can perform, in program order. -/
inductive LoginAction where
  | clickAccount
  | warnNoPassword
  | setTypingLock
  | focusPassword
  | sleep (ms : Nat)
  | typePassword (pwd : String)
  | clickNext
  | scheduleUnlock (ms : Nat)
  | cancelPoll
deriving DecidableEq, Repr

/-- One tick of tryAttemptLogin.  savedPassword is GM_getValue of the
stored credential (empty string when unset, matching the source's
falsy check), jitter is the random part of the post-typing wait. -/
def tryAttemptLogin (savedPassword : String) (jitter : Nat) (dom : AccountsDom)
    (st : LoginState) : LoginState × List LoginAction :=
  if st.isTyping then (st, [])
  else if dom.accountItem then (st, [.clickAccount])
  else if dom.passwordInput && dom.nextButton then
    if dom.passwordVisible && dom.passwordValue == "" then
      if savedPassword == "" then (st, [.warnNoPassword])
      else (⟨true⟩,
        [.setTypingLock, .focusPassword, .sleep 500, .typePassword savedPassword,
         .sleep (800 + jitter), .clickNext, .scheduleUnlock 5000])
    else (st, [])
  else (st, [])

/-- Polling cadence of handleAccountsGoogle (v1.5 line 187). -/
def accountsPollInterval : Nat := 1500

/-- Events acting on the login state: a poll tick against a DOM
snapshot, or the firing of the 5000ms unlock timeout. -/
inductive LoginEvent where
  | tick (dom : AccountsDom)
  | unlockTimeout
deriving DecidableEq, Repr

/-- Step of the login machine on one event.  The unlock timeout body
is the closure of line 238: it sets isTyping to false unconditionally. -/
def loginStep (savedPassword : String) (jitter : Nat) (st : LoginState) :
    LoginEvent → LoginState × List LoginAction
  | .tick dom => tryAttemptLogin savedPassword jitter dom st
  | .unlockTimeout => (⟨false⟩, [])

/-- Run the login machine over a sequence of events, concatenating the
performed actions. -/
def runLogin (savedPassword : String) (jitter : Nat) (st : LoginState) :
    List LoginEvent → List LoginAction
  | [] => []
  | e :: es =>
    (loginStep savedPassword jitter st e).2 ++
      runLogin savedPassword jitter (loginStep savedPassword jitter st e).1 es

/-- Does this action invoke the humanized input simulator? -/
def isTypePassword : LoginAction → Bool
  | .typePassword _ => true
  | _ => false

/-- Is this action the account-item click? -/
def isClickAccount : LoginAction → Bool
  | .clickAccount => true
  | _ => false

/-- Is this action a poll cancellation? -/
def isCancelPoll : LoginAction → Bool
  | .cancelPoll => true
  | _ => false

/-- Count the actions satisfying a predicate. -/
def countActions (p : LoginAction → Bool) (acts : List LoginAction) : Nat :=
  (acts.filter p).length

/-! ## Interstitial signin page: handleLabsAuthPage (v1.5 lines 164-180) -/

/-- DOM snapshot seen by one tick of the interstitial-signin poll. -/
structure LabsAuthDom where
  /-- selector form button[type=submit] matches -/
  submitBtnPresent : Bool
  /-- selector button.button matches -/
  fallbackBtnPresent : Bool
deriving DecidableEq, Repr

/-- Which of the two selectors supplied the clicked control. -/
inductive LabsButton where
  | primary
  | secondary
deriving DecidableEq, Repr

/-- Effects of the interstitial-signin handler. -/
inductive LabsAction where
  | cancelPoll
  | click (b : LabsButton)
deriving DecidableEq, Repr

/-- The button lookup of one tick: primary selector first, the fallback
selector only when the primary finds nothing (the source's || chain). -/
def labsAuthQuery (dom : LabsAuthDom) : Option LabsButton :=
  if dom.submitBtnPresent then some .primary
  else if dom.fallbackBtnPresent then some .secondary
  else none

/-- handleLabsAuthPage run over the successive DOM snapshots seen by
its setInterval ticks: on the first tick whose lookup succeeds, clear
the interval and click the found control; later snapshots are never
observed because the interval has been cancelled. -/
def handleLabsAuthPage : List LabsAuthDom → List LabsAction
  | [] => []
  | d :: ds =>
    match labsAuthQuery d with
    | some b => [.cancelPoll, .click b]
    | none => handleLabsAuthPage ds

/-- Polling cadence of handleLabsAuthPage (v1.5 line 179). -/
def labsAuthPollInterval : Nat := 1000

/-- Count the labs-auth actions satisfying a predicate. -/
def countLabsActions (p : LabsAction → Bool) (acts : List LabsAction) : Nat :=
  (acts.filter p).length

/-- Is this labs-auth action a poll cancellation? -/
def isLabsCancel : LabsAction → Bool
  | .cancelPoll => true
  | _ => false

/-- Is this labs-auth action a click? -/
def isLabsClick : LabsAction → Bool
  | .click _ => true
  | _ => false

/-! ## Route dispatch (v1.5 lines 148-160) -/

/-- JavaScript String.prototype.includes: substring containment. -/
def strIncludes (s sub : String) : Bool :=
  decide (sub.data <:+: s.data)

/-- The handler selected by the top-level route dispatch. -/
inductive Handler where
  | labsAuthPage
  | labsGoogle
  | accountsGoogle
  | noHandler
deriving DecidableEq, Repr

/-- The top-level if/else chain over window.location.hostname and
window.location.pathname. -/
def routeDispatch (host path : String) : Handler :=
  if strIncludes host "labs.google" then
    if strIncludes path "/auth/signin" then .labsAuthPage else .labsGoogle
  else if strIncludes host "accounts.google.com" then .accountsGoogle
  else .noHandler

/-! ## Cookie harvest: syncToken (v1.5 lines 289-300, identical in v1.2) -/

/-- The fixed cookie name requested from GM_cookie.list. -/
def sessionCookieName : String := "__Secure-next-auth.session-token"

/-- A cookie of the browser cookie store. -/
structure Cookie where
  name : String
  value : String
deriving DecidableEq, Repr

/-- Effects of the syncToken callback. -/
inductive SyncCbAction where
  | logCookieError (e : String)
  | logNotAuthenticated
  | invokeSendToken (st : String)
deriving DecidableEq, Repr

/-- GM_cookie.list with a name filter: the cookies of the jar whose
name equals the requested one, in jar order. -/
def gmCookieList (jar : List Cookie) : List Cookie :=
  jar.filter (fun c => c.name == sessionCookieName)

/-- The callback of GM_cookie.list inside syncToken: on a store error
log it and stop; with at least one cookie call sendTokenToServer on
the first one's value; otherwise log not-authenticated. -/
def syncTokenCallback (cookies : List Cookie) (error : Option String) : List SyncCbAction :=
  match error with
  | some e => [.logCookieError e]
  | none =>
    match cookies with
    | [] => [.logNotAuthenticated]
    | c :: _ => [.invokeSendToken c.value]

/-- syncToken against a cookie jar and the store's error outcome. -/
def syncToken (jar : List Cookie) (error : Option String) : List SyncCbAction :=
  syncTokenCallback (gmCookieList jar) error

/-- Count the sendTokenToServer invocations in a callback run. -/
def countSends (acts : List SyncCbAction) : Nat :=
  (acts.filter (fun a => match a with | .invokeSendToken _ => true | _ => false)).length

/-! ## Token sync client: sendTokenToServer (v1.2 lines 31-62, v1.5 lines 302-323) -/

/-- CONFIG.API_BASE_URL, identical in both scripts. -/
def API_BASE_URL : String := "http://localhost:8000"

/-- CONFIG.AUTH_TOKEN, identical in both scripts. -/
def AUTH_TOKEN : String := "han1234"

/-- A response observed by the onload handler. -/
structure HttpResponse where
  status : Nat
  responseText : String
deriving DecidableEq, Repr

/-- Outcome of JSON.parse plus the field reads the handler performs:
either the parse (or a field access) throws, or it yields a success
flag with the data fields the success branch logs. -/
inductive ParsedBody where
  | parseFailure
  | parsed (success : Bool) (email : String) (action : String)
deriving DecidableEq, Repr

/-- Effects of the token sync client. -/
inductive NetAction where
  | httpPost (url : String) (authHeader : String) (st : String)
  | logInfo (tag : String)
  | logError (tag : String)
deriving DecidableEq, Repr

/-- The body of sendTokenToServer in the v1.2 script: one log line then
one GM_xmlhttpRequest POST to the sync endpoint with the bearer header. -/
def sendTokenToServer_v12 (st : String) : List NetAction :=
  [.logInfo "token-acquired-uploading",
   .httpPost (API_BASE_URL ++ "/api/tokens/sync") ("Bearer " ++ AUTH_TOKEN) st]

/-- The body of sendTokenToServer in the v1.5 script: same single POST. -/
def sendTokenToServer_v15 (st : String) : List NetAction :=
  [.logInfo "token-acquired-uploading",
   .httpPost (API_BASE_URL ++ "/api/tokens/sync") ("Bearer " ++ AUTH_TOKEN) st]

/-- The v1.2 onload handler: on 200 log success or a structured error
(server-returned-error when success is false, parse-response-failed
when JSON.parse throws); on any other status log the HTTP failure. -/
def sendOnload_v12 (parse : String → ParsedBody) (r : HttpResponse) : List NetAction :=
  if r.status == 200 then
    match parse r.responseText with
    | .parsed true email action => [.logInfo ("sync-success " ++ email ++ " " ++ action)]
    | .parsed false _ _ => [.logError "server-returned-error"]
    | .parseFailure => [.logError "parse-response-failed"]
  else [.logError "http-request-failed"]

/-- The v1.2 onerror handler: log the network error. -/
def sendOnerror_v12 (err : String) : List NetAction :=
  [.logError ("network-error " ++ err)]

/-- The v1.5 onload handler: on 200 with success true log success; the
success-false case has no else branch, the catch block is empty, and
there is no non-200 branch, so every failure path performs nothing. -/
def sendOnload_v15 (parse : String → ParsedBody) (r : HttpResponse) : List NetAction :=
  if r.status == 200 then
    match parse r.responseText with
    | .parsed true email _ => [.logInfo ("sync-success " ++ email)]
    | .parsed false _ _ => []
    | .parseFailure => []
  else []

/-- The v1.5 script registers no onerror handler: a transport-level
failure performs nothing. -/
def sendOnerror_v15 : List NetAction := []

/-- Count the POST requests in a client action list. -/
def countPosts (acts : List NetAction) : Nat :=
  (acts.filter (fun a => match a with | .httpPost _ _ _ => true | _ => false)).length

/-- Count the error-level log calls in a client action list. -/
def countErrorLogs (acts : List NetAction) : Nat :=
  (acts.filter (fun a => match a with | .logError _ => true | _ => false)).length

/-! ## Lemmas about the humanized input simulator -/

theorem typeCharsSim_data (delay : Nat → Nat) (cs : List Char) :
    ∀ (i : Nat) (v : String), ((typeCharsSim delay i v cs).1).data = v.data ++ cs := by
  induction cs with
  | nil => intro i v; simp [typeCharsSim]
  | cons c cs ih => intro i v; simp [typeCharsSim, ih, String.data_push]

theorem typeCharsSim_events (delay : Nat → Nat) (cs : List Char) :
    ∀ (i : Nat) (v : String),
      (typeCharsSim delay i v cs).2.1 = List.replicate cs.length inputEvent := by
  induction cs with
  | nil => intro i v; simp [typeCharsSim]
  | cons c cs ih => intro i v; simp [typeCharsSim, ih, List.replicate_succ]

theorem typeCharsSim_delay_bounds (delay : Nat → Nat)
    (h : ∀ j, 50 ≤ delay j ∧ delay j < 150) (cs : List Char) :
    ∀ (i : Nat) (v : String),
      50 * cs.length ≤ (typeCharsSim delay i v cs).2.2 ∧
      (typeCharsSim delay i v cs).2.2 ≤ 150 * cs.length := by
  induction cs with
  | nil => intro i v; simp [typeCharsSim]
  | cons c cs ih =>
      intro i v
      have h1 := h i
      have h2 := ih (i + 1) (v.push c)
      simp only [typeCharsSim, List.length_cons]
      omega

theorem countKind_append (k : String) (a b : List DomEvent) :
    countKind k (a ++ b) = countKind k a + countKind k b := by
  simp [countKind, List.filter_append]

theorem countKind_input_replicate (n : Nat) :
    countKind "input" (List.replicate n inputEvent) = n := by
  induction n with
  | zero => rfl
  | succ n ih => simp [countKind, List.replicate_succ, inputEvent]

theorem getLast_append_singleton {α : Type} (l : List α) (a : α) :
    (l ++ [a]).getLast? = some a := by
  induction l with
  | nil => rfl
  | cons x xs ih => simp [List.getLast?_cons, List.cons_append, ih]

theorem typeStringSimulate_events_eq (delay : Nat → Nat) (v0 text : String) :
    (typeStringSimulate delay v0 text).events =
      List.replicate text.length inputEvent ++ [changeEvent] := by
  show (typeCharsSim delay 0 v0 text.data).2.1 ++ [changeEvent] =
    List.replicate text.length inputEvent ++ [changeEvent]
  rw [typeCharsSim_events]
  rfl

theorem typeStringSimulate_finalValue_eq (delay : Nat → Nat) (v0 text : String) :
    (typeStringSimulate delay v0 text).finalValue = v0 ++ text := by
  apply String.ext
  show ((typeCharsSim delay 0 v0 text.data).1).data = (v0 ++ text).data
  rw [typeCharsSim_data, String.data_append]

/-! ## Claim theorems for the simulator -/

/-- C2: typing a string of length N dispatches exactly N bubbling input
events and exactly one bubbling change event after the final character,
leaves the field's value ending in the typed string, and accumulates a
total keystroke delay that is the sum of N draws each in [50, 150),
hence within [50*N, 150*N]; in particular for "abc123" typed into an
empty field: 6 input events, 1 change event, final value "abc123" and
total delay within [300, 900]. -/
theorem typeStringSimulate_spec (delay : Nat → Nat) (v0 text : String)
    (h : ∀ j, 50 ≤ delay j ∧ delay j < 150) :
    countKind "input" (typeStringSimulate delay v0 text).events = text.length ∧
    countKind "change" (typeStringSimulate delay v0 text).events = 1 ∧
    (typeStringSimulate delay v0 text).events.getLast? = some changeEvent ∧
    (∀ e ∈ (typeStringSimulate delay v0 text).events, e.bubbles = true) ∧
    text.data <:+ ((typeStringSimulate delay v0 text).finalValue).data ∧
    50 * text.length ≤ (typeStringSimulate delay v0 text).totalDelay ∧
    (typeStringSimulate delay v0 text).totalDelay ≤ 150 * text.length ∧
    countKind "input" (typeStringSimulate delay "" "abc123").events = 6 ∧
    countKind "change" (typeStringSimulate delay "" "abc123").events = 1 ∧
    (typeStringSimulate delay "" "abc123").finalValue = "abc123" ∧
    300 ≤ (typeStringSimulate delay "" "abc123").totalDelay ∧
    (typeStringSimulate delay "" "abc123").totalDelay ≤ 900 := by
  have hev := typeStringSimulate_events_eq delay v0 text
  have hev6 := typeStringSimulate_events_eq delay "" "abc123"
  have hcount : ∀ (w0 t : String),
      countKind "input" (typeStringSimulate delay w0 t).events = t.length := by
    intro w0 t
    rw [typeStringSimulate_events_eq, countKind_append, countKind_input_replicate]
    rfl
  have hchange : ∀ (w0 t : String),
      countKind "change" (typeStringSimulate delay w0 t).events = 1 := by
    intro w0 t
    rw [typeStringSimulate_events_eq, countKind_append]
    have : countKind "change" (List.replicate t.length inputEvent) = 0 := by
      induction t.length with
      | zero => rfl
      | succ n ih => simp [countKind, List.replicate_succ, inputEvent]
    rw [this]
    rfl
  have hdelay : ∀ (w0 t : String),
      50 * t.length ≤ (typeStringSimulate delay w0 t).totalDelay ∧
      (typeStringSimulate delay w0 t).totalDelay ≤ 150 * t.length := by
    intro w0 t
    exact typeCharsSim_delay_bounds delay h t.data 0 w0
  refine ⟨hcount v0 text, hchange v0 text, ?_, ?_, ?_, (hdelay v0 text).1,
    (hdelay v0 text).2, ?_, hchange "" "abc123", ?_, ?_, ?_⟩
  · rw [hev]; exact getLast_append_singleton _ _
  · intro e he
    rw [hev] at he
    rcases List.mem_append.mp he with h1 | h1
    · rw [List.eq_of_mem_replicate h1]; rfl
    · rw [List.mem_singleton.mp h1]; rfl
  · rw [typeStringSimulate_finalValue_eq, String.data_append]
    exact List.suffix_append _ _
  · rw [hcount "" "abc123"]; rfl
  · rw [typeStringSimulate_finalValue_eq]; rfl
  · have h6 := (hdelay "" "abc123").1
    have hlen : String.length "abc123" = 6 := rfl
    rw [hlen] at h6
    omega
  · have h6 := (hdelay "" "abc123").2
    have hlen : String.length "abc123" = 6 := rfl
    rw [hlen] at h6
    omega

/-- Witness for C2 at the constant delay 100 on input "abc123". -/
theorem typeStringSimulate_spec_witness :
    countKind "input" (typeStringSimulate (fun _ => 100) "" "abc123").events =
      String.length "abc123" :=
  (typeStringSimulate_spec (fun _ => 100) "" "abc123"
    (by intro j; exact ⟨by norm_num, by norm_num⟩)).1

/-- C10: the simulator appends to the field's live value: for any
initial value v0 the final value is v0 ++ text, and exactly one input
event is dispatched per character of text regardless of v0. -/
theorem typeStringSimulate_appends (delay : Nat → Nat) (v0 text : String) :
    (typeStringSimulate delay v0 text).finalValue = v0 ++ text ∧
    countKind "input" (typeStringSimulate delay v0 text).events = text.length := by
  refine ⟨typeStringSimulate_finalValue_eq delay v0 text, ?_⟩
  rw [typeStringSimulate_events_eq, countKind_append, countKind_input_replicate]
  rfl

/-! ## Lemmas about the login state machine -/

theorem tryAttemptLogin_shape (pwd : String) (jitter : Nat) (dom : AccountsDom)
    (st : LoginState) :
    tryAttemptLogin pwd jitter dom st = (st, []) ∨
    tryAttemptLogin pwd jitter dom st = (st, [.clickAccount]) ∨
    tryAttemptLogin pwd jitter dom st = (st, [.warnNoPassword]) ∨
    (tryAttemptLogin pwd jitter dom st =
      (⟨true⟩, [.setTypingLock, .focusPassword, .sleep 500, .typePassword pwd,
        .sleep (800 + jitter), .clickNext, .scheduleUnlock 5000]) ∧
      st.isTyping = false ∧ dom.accountItem = false ∧ dom.passwordInput = true ∧
      dom.nextButton = true ∧ dom.passwordVisible = true ∧ dom.passwordValue = "" ∧
      pwd ≠ "") := by
  obtain ⟨acc, pin, vis, pval, nxt⟩ := dom
  obtain ⟨typ⟩ := st
  cases typ
  · cases acc
    · cases pin
      · left; simp [tryAttemptLogin]
      · cases nxt
        · left; simp [tryAttemptLogin]
        · cases vis
          · left; simp [tryAttemptLogin]
          · by_cases hpv : pval = ""
            · by_cases hpw : pwd = ""
              · right; right; left; simp [tryAttemptLogin, hpv, hpw]
              · right; right; right
                refine ⟨by simp [tryAttemptLogin, hpv, hpw], rfl, rfl, rfl, rfl, rfl, hpv, hpw⟩
            · left; simp [tryAttemptLogin, hpv]
    · right; left; simp [tryAttemptLogin]
  · left; simp [tryAttemptLogin]

theorem runLogin_locked (pwd : String) (jitter : Nat) (es : List LoginEvent) :
    ∀ st : LoginState, st.isTyping = true →
      (∀ e ∈ es, e ≠ LoginEvent.unlockTimeout) → runLogin pwd jitter st es = [] := by
  induction es with
  | nil => intro st _ _; rfl
  | cons e es ih =>
      intro st h1 h2
      cases e with
      | tick dom =>
          have hstep : tryAttemptLogin pwd jitter dom st = (st, []) := by
            simp [tryAttemptLogin, h1]
          simp [runLogin, loginStep, hstep,
            ih st h1 (fun x hx => h2 x (List.mem_cons_of_mem _ hx))]
      | unlockTimeout => exact absurd rfl (h2 _ (List.mem_cons_self _ _))

/-! ## Claim theorems for the login state machine -/

/-- C1: the typing lock serializes simulated password entry.  A tick
that observes the lock held returns immediately with no actions; a tick
that invokes the simulator is exactly the typing sequence, which sets
the lock first (the action list starts with setTypingLock, the
typePassword action comes after it) and schedules the bounded 5000ms
unlock after the next-control click (last action); the unlock timeout
resets the lock unconditionally; and while the lock is held, no run of
further events that does not include the unlock timeout can invoke the
simulator again. -/
theorem tryAttemptLogin_lock_discipline (pwd : String) (jitter : Nat) (dom : AccountsDom)
    (st : LoginState) (es : List LoginEvent) :
    (st.isTyping = true → tryAttemptLogin pwd jitter dom st = (st, [])) ∧
    (∀ p, LoginAction.typePassword p ∈ (tryAttemptLogin pwd jitter dom st).2 →
      (tryAttemptLogin pwd jitter dom st).1 = ⟨true⟩ ∧
      (tryAttemptLogin pwd jitter dom st).2 =
        [.setTypingLock, .focusPassword, .sleep 500, .typePassword pwd,
         .sleep (800 + jitter), .clickNext, .scheduleUnlock 5000]) ∧
    loginStep pwd jitter st LoginEvent.unlockTimeout = (⟨false⟩, []) ∧
    (st.isTyping = true → (∀ e ∈ es, e ≠ LoginEvent.unlockTimeout) →
      countActions isTypePassword (runLogin pwd jitter st es) = 0) := by
  refine ⟨?_, ?_, rfl, ?_⟩
  · intro h; simp [tryAttemptLogin, h]
  · intro p hp
    rcases tryAttemptLogin_shape pwd jitter dom st with h | h | h | ⟨h, _⟩ <;>
      rw [h] at hp ⊢ <;> simp_all
  · intro h1 h2
    rw [runLogin_locked pwd jitter es st h1 h2]
    rfl

/-- Witness for C1: a tick under a held lock does nothing, and a run of
further ticks without the unlock timeout never types. -/
theorem tryAttemptLogin_lock_discipline_witness :
    tryAttemptLogin "pw" 7 ⟨false, true, true, "", true⟩ ⟨true⟩ = (⟨true⟩, []) ∧
    countActions isTypePassword
      (runLogin "pw" 7 ⟨true⟩ [LoginEvent.tick ⟨false, true, true, "", true⟩]) = 0 := by
  have h := tryAttemptLogin_lock_discipline "pw" 7 ⟨false, true, true, "", true⟩ ⟨true⟩
    [LoginEvent.tick ⟨false, true, true, "", true⟩]
  exact ⟨h.1 rfl, h.2.2.2 rfl (by decide)⟩

/-- C5: a tick invokes the simulator only when the password input and
next control are present, the input is visible and empty, the lock is
free and a credential is configured; with everything present but no
credential, the tick logs exactly the warning and changes nothing. -/
theorem tryAttemptLogin_guard (pwd : String) (jitter : Nat) (dom : AccountsDom)
    (st : LoginState) :
    (∀ p, LoginAction.typePassword p ∈ (tryAttemptLogin pwd jitter dom st).2 →
      dom.passwordInput = true ∧ dom.nextButton = true ∧ dom.passwordVisible = true ∧
      dom.passwordValue = "" ∧ st.isTyping = false ∧ pwd ≠ "") ∧
    (st.isTyping = false → dom.accountItem = false → dom.passwordInput = true →
      dom.nextButton = true → dom.passwordVisible = true → dom.passwordValue = "" →
      pwd = "" →
      tryAttemptLogin pwd jitter dom st = (st, [LoginAction.warnNoPassword])) := by
  constructor
  · intro p hp
    rcases tryAttemptLogin_shape pwd jitter dom st with h | h | h | ⟨h, hside⟩
    · rw [h] at hp; simp at hp
    · rw [h] at hp; simp at hp
    · rw [h] at hp; simp at hp
    · exact ⟨hside.2.2.1, hside.2.2.2.1, hside.2.2.2.2.1, hside.2.2.2.2.2.1, hside.1,
        hside.2.2.2.2.2.2⟩
  · intro h1 h2 h3 h4 h5 h6 h7
    simp [tryAttemptLogin, h1, h2, h3, h4, h5, h6, h7]

/-- Witness for C5: an unlocked tick on a visible empty password field
with no stored credential produces exactly the warning. -/
theorem tryAttemptLogin_guard_witness :
    tryAttemptLogin "" 3 ⟨false, true, true, "", true⟩ ⟨false⟩ =
      (⟨false⟩, [LoginAction.warnNoPassword]) :=
  (tryAttemptLogin_guard "" 3 ⟨false, true, true, "", true⟩ ⟨false⟩).2
    rfl rfl rfl rfl rfl rfl rfl

/-- C6: on an unlocked tick whose DOM shows the account list, the tick
performs exactly one account click and nothing else (no password-entry
action, no poll cancellation), the lock state is unchanged, and the
repeating poll keeps processing subsequent events. -/
theorem tryAttemptLogin_accountChooser (pwd : String) (jitter : Nat) (dom : AccountsDom)
    (st : LoginState) (es : List LoginEvent)
    (hlock : st.isTyping = false) (hacc : dom.accountItem = true) :
    tryAttemptLogin pwd jitter dom st = (st, [LoginAction.clickAccount]) ∧
    countActions isClickAccount (tryAttemptLogin pwd jitter dom st).2 = 1 ∧
    countActions isTypePassword (tryAttemptLogin pwd jitter dom st).2 = 0 ∧
    countActions isCancelPoll (tryAttemptLogin pwd jitter dom st).2 = 0 ∧
    runLogin pwd jitter st (LoginEvent.tick dom :: es) =
      LoginAction.clickAccount :: runLogin pwd jitter st es := by
  have hres : tryAttemptLogin pwd jitter dom st = (st, [.clickAccount]) := by
    simp [tryAttemptLogin, hlock, hacc]
  refine ⟨hres, ?_, ?_, ?_, ?_⟩
  · simp [hres, countActions, isClickAccount]
  · simp [hres, countActions, isTypePassword]
  · simp [hres, countActions, isCancelPoll]
  · simp [runLogin, loginStep, hres]

/-- Witness for C6 on a concrete account-chooser DOM. -/
theorem tryAttemptLogin_accountChooser_witness :
    tryAttemptLogin "pw" 0 ⟨true, false, false, "", false⟩ ⟨false⟩ =
      (⟨false⟩, [LoginAction.clickAccount]) :=
  (tryAttemptLogin_accountChooser "pw" 0 ⟨true, false, false, "", false⟩ ⟨false⟩ []
    rfl rfl).1

/-! ## Claim theorems for the interstitial signin handler -/

theorem handleLabsAuthPage_skip_unmatched (pre : List LabsAuthDom)
    (h : ∀ d ∈ pre, labsAuthQuery d = none) (rest : List LabsAuthDom) :
    handleLabsAuthPage (pre ++ rest) = handleLabsAuthPage rest := by
  induction pre with
  | nil => rfl
  | cons d ds ih =>
      have hd : labsAuthQuery d = none := h d (List.mem_cons_self _ _)
      have hds : ∀ x ∈ ds, labsAuthQuery x = none :=
        fun x hx => h x (List.mem_cons_of_mem _ hx)
      simp [handleLabsAuthPage, hd, ih hds]

/-- C7: the interstitial handler tries the primary submit selector
first and the fallback selector only when the primary is absent; on
the first tick whose lookup succeeds it cancels the poll exactly once,
before clicking, clicks the matched control exactly once, and later
DOM snapshots are never acted on. -/
theorem handleLabsAuthPage_firstMatch (pre post : List LabsAuthDom) (d : LabsAuthDom)
    (b : LabsButton) (hpre : ∀ x ∈ pre, labsAuthQuery x = none)
    (hd : labsAuthQuery d = some b) :
    handleLabsAuthPage (pre ++ d :: post) = [LabsAction.cancelPoll, LabsAction.click b] ∧
    countLabsActions isLabsCancel (handleLabsAuthPage (pre ++ d :: post)) = 1 ∧
    countLabsActions isLabsClick (handleLabsAuthPage (pre ++ d :: post)) = 1 ∧
    (handleLabsAuthPage (pre ++ d :: post)).head? = some LabsAction.cancelPoll ∧
    (∀ x : LabsAuthDom, x.submitBtnPresent = true →
      labsAuthQuery x = some LabsButton.primary) ∧
    (∀ x : LabsAuthDom, x.submitBtnPresent = false → x.fallbackBtnPresent = true →
      labsAuthQuery x = some LabsButton.secondary) := by
  have hrun : handleLabsAuthPage (pre ++ d :: post) = [.cancelPoll, .click b] := by
    rw [handleLabsAuthPage_skip_unmatched pre hpre]
    simp [handleLabsAuthPage, hd]
  refine ⟨hrun, ?_, ?_, ?_, ?_, ?_⟩
  · simp [hrun, countLabsActions, isLabsCancel, isLabsClick]
  · simp [hrun, countLabsActions, isLabsCancel, isLabsClick]
  · simp [hrun]
  · intro x hx; simp [labsAuthQuery, hx]
  · intro x hx1 hx2; simp [labsAuthQuery, hx1, hx2]

/-- Witness for C7: one empty tick, then a tick where the primary
selector matches; snapshots after the match are ignored. -/
theorem handleLabsAuthPage_firstMatch_witness :
    handleLabsAuthPage [⟨false, false⟩, ⟨true, false⟩, ⟨true, true⟩] =
      [LabsAction.cancelPoll, LabsAction.click LabsButton.primary] :=
  (handleLabsAuthPage_firstMatch [⟨false, false⟩] [⟨true, true⟩] ⟨true, false⟩
    LabsButton.primary (by decide) rfl).1

/-! ## Claim theorems for the route dispatch -/

/-- C8: the dispatch is a pure first-match-wins function of hostname
and path: a labs.google host with an /auth/signin path goes to the
interstitial handler, a labs.google host with any other path goes to
the business-page handler, otherwise an accounts.google.com host goes
to the login state machine; in every case exactly one handler value is
selected. -/
theorem routeDispatch_spec (host path : String) :
    (strIncludes host "labs.google" = true → strIncludes path "/auth/signin" = true →
      routeDispatch host path = Handler.labsAuthPage) ∧
    (strIncludes host "labs.google" = true → strIncludes path "/auth/signin" = false →
      routeDispatch host path = Handler.labsGoogle) ∧
    (strIncludes host "labs.google" = false →
      strIncludes host "accounts.google.com" = true →
      routeDispatch host path = Handler.accountsGoogle) ∧
    (strIncludes host "labs.google" = false →
      strIncludes host "accounts.google.com" = false →
      routeDispatch host path = Handler.noHandler) := by
  refine ⟨?_, ?_, ?_, ?_⟩ <;> intro h1 h2 <;> simp [routeDispatch, h1, h2]

/-- Witness for C8 on the real interstitial signin URL. -/
theorem routeDispatch_spec_witness :
    routeDispatch "labs.google" "/fx/api/auth/signin" = Handler.labsAuthPage :=
  (routeDispatch_spec "labs.google" "/fx/api/auth/signin").1 (by decide) (by decide)

/-- C9 counterexample: a hostname that contains accounts.google.com as
a substring but also contains labs.google is dispatched to the
business-page handler, not to the login state machine, refuting the
claim that every hostname containing accounts.google.com runs the
login state machine. -/
theorem routeDispatch_bothDomains_counterexample :
    strIncludes "labs.google-accounts.google.com" "accounts.google.com" = true ∧
    routeDispatch "labs.google-accounts.google.com" "/signin" ≠ Handler.accountsGoogle ∧
    routeDispatch "labs.google-accounts.google.com" "/signin" = Handler.labsGoogle := by
  refine ⟨by decide, by decide, by decide⟩

/-- C9 amended: domain classification is substring containment, not
exact equality: every hostname containing labs.google runs the
target-application handlers (the interstitial one on /auth/signin
paths, the business-page one otherwise, e.g. labs.google.example.com),
and every hostname containing accounts.google.com while not containing
labs.google runs the login state machine. -/
theorem routeDispatch_substring_amended (host path : String) :
    (strIncludes host "labs.google" = true → strIncludes path "/auth/signin" = true →
      routeDispatch host path = Handler.labsAuthPage) ∧
    (strIncludes host "labs.google" = true → strIncludes path "/auth/signin" = false →
      routeDispatch host path = Handler.labsGoogle) ∧
    (strIncludes host "labs.google" = false →
      strIncludes host "accounts.google.com" = true →
      routeDispatch host path = Handler.accountsGoogle) ∧
    strIncludes "labs.google.example.com" "labs.google" = true ∧
    routeDispatch "labs.google.example.com" "/fx/tools" = Handler.labsGoogle := by
  refine ⟨?_, ?_, ?_, by decide, by decide⟩ <;> intro h1 h2 <;> simp [routeDispatch, h1, h2]

/-- Witness for C9 amended: a pure identity-provider hostname reaches
the login state machine. -/
theorem routeDispatch_substring_amended_witness :
    routeDispatch "accounts.google.com" "/v3/signin" = Handler.accountsGoogle :=
  (routeDispatch_substring_amended "accounts.google.com" "/v3/signin").2.2.1
    (by decide) (by decide)

/-! ## Claim theorems for the cookie harvester -/

/-- C3: with no store error and at least one cookie matching the fixed
name, the callback invokes sendTokenToServer exactly once with the
first match's value; with no error and zero matches it only logs
not-authenticated; on a store error it only logs the error; in the
latter two cases sendTokenToServer is never invoked. -/
theorem syncToken_spec (jar : List Cookie) (error : Option String) :
    (∀ c cs, error = none → gmCookieList jar = c :: cs →
      syncToken jar error = [SyncCbAction.invokeSendToken c.value] ∧
      countSends (syncToken jar error) = 1) ∧
    (error = none → gmCookieList jar = [] →
      syncToken jar error = [SyncCbAction.logNotAuthenticated] ∧
      countSends (syncToken jar error) = 0) ∧
    (∀ e, error = some e →
      syncToken jar error = [SyncCbAction.logCookieError e] ∧
      countSends (syncToken jar error) = 0) := by
  refine ⟨?_, ?_, ?_⟩
  · intro c cs h1 h2
    subst h1
    simp [syncToken, syncTokenCallback, h2, countSends]
  · intro h1 h2
    subst h1
    simp [syncToken, syncTokenCallback, h2, countSends]
  · intro e h1
    subst h1
    simp [syncToken, syncTokenCallback, countSends]

/-- Witness for C3: a jar holding a non-matching cookie and one
matching cookie yields exactly one send with the matching value. -/
theorem syncToken_spec_witness :
    syncToken [⟨"other-cookie", "zzz"⟩, ⟨sessionCookieName, "tok"⟩] none =
      [SyncCbAction.invokeSendToken "tok"] :=
  ((syncToken_spec [⟨"other-cookie", "zzz"⟩, ⟨sessionCookieName, "tok"⟩] none).1
    ⟨sessionCookieName, "tok"⟩ [] rfl (by decide)).1

/-! ## Claim theorems for the token sync client -/

/-- C4 counterexample: the v1.5 script's sendTokenToServer response
handling logs no structured error on HTTP 200 with success false, none
on an unparsable 200 body, none on a non-200 status, and registers no
transport-error handler, refuting the claim that every such failure is
logged. -/
theorem sendTokenToServer_v15_counterexample :
    sendOnload_v15 (fun _ => ParsedBody.parsed false "" "") ⟨200, "resp"⟩ = [] ∧
    sendOnload_v15 (fun _ => ParsedBody.parseFailure) ⟨200, "not-json"⟩ = [] ∧
    sendOnload_v15 (fun _ => ParsedBody.parseFailure) ⟨500, "oops"⟩ = [] ∧
    sendOnerror_v15 = [] :=
  ⟨rfl, rfl, rfl, rfl⟩

/-- C4 amended: each sendTokenToServer call issues exactly one POST
and its response handlers never issue another (no retry, in both
scripts); the v1.2 handlers log exactly one structured error on a 200
body with success false, on an unparsable 200 body, on a non-200
status and on a transport error, while the v1.5 handlers perform
nothing at all on every one of those failure paths. -/
theorem sendTokenToServer_spec (st : String) (parse : String → ParsedBody)
    (r : HttpResponse) (err : String) :
    countPosts (sendTokenToServer_v12 st) = 1 ∧
    countPosts (sendTokenToServer_v15 st) = 1 ∧
    countPosts (sendOnload_v12 parse r) = 0 ∧
    countPosts (sendOnerror_v12 err) = 0 ∧
    countPosts (sendOnload_v15 parse r) = 0 ∧
    countPosts sendOnerror_v15 = 0 ∧
    (∀ em ac, r.status = 200 → parse r.responseText = ParsedBody.parsed false em ac →
      countErrorLogs (sendOnload_v12 parse r) = 1 ∧ sendOnload_v15 parse r = []) ∧
    (r.status = 200 → parse r.responseText = ParsedBody.parseFailure →
      countErrorLogs (sendOnload_v12 parse r) = 1 ∧ sendOnload_v15 parse r = []) ∧
    (r.status ≠ 200 →
      countErrorLogs (sendOnload_v12 parse r) = 1 ∧ sendOnload_v15 parse r = []) ∧
    countErrorLogs (sendOnerror_v12 err) = 1 ∧
    sendOnerror_v15 = [] := by
  have hv12 : countPosts (sendOnload_v12 parse r) = 0 := by
    unfold sendOnload_v12
    split
    · rcases hpr : parse r.responseText with _ | ⟨s, em, ac⟩
      · simp [hpr, countPosts]
      · cases s <;> simp [hpr, countPosts]
    · simp [countPosts]
  have hv15 : countPosts (sendOnload_v15 parse r) = 0 := by
    unfold sendOnload_v15
    split
    · rcases hpr : parse r.responseText with _ | ⟨s, em, ac⟩
      · simp [hpr, countPosts]
      · cases s <;> simp [hpr, countPosts]
    · simp [countPosts]
  refine ⟨rfl, rfl, hv12, rfl, hv15, rfl, ?_, ?_, ?_, rfl, rfl⟩
  · intro em ac h1 h2
    constructor <;>
      simp [sendOnload_v12, sendOnload_v15, h1, h2, countErrorLogs]
  · intro h1 h2
    constructor <;>
      simp [sendOnload_v12, sendOnload_v15, h1, h2, countErrorLogs]
  · intro h1
    have hbeq : (r.status == 200) = false := by
      simp [Nat.beq_eq_true_eq]
      exact h1
    constructor <;> simp [sendOnload_v12, sendOnload_v15, hbeq, countErrorLogs]

/-- Witness for C4 amended: a 200 response whose body parses with
success false is logged as an error by v1.2 and ignored by v1.5. -/
theorem sendTokenToServer_spec_witness :
    countErrorLogs (sendOnload_v12 (fun _ => ParsedBody.parsed false "" "")
      ⟨200, "resp"⟩) = 1 ∧
    sendOnload_v15 (fun _ => ParsedBody.parsed false "" "") ⟨200, "resp"⟩ = [] :=
  (sendTokenToServer_spec "tok" (fun _ => ParsedBody.parsed false "" "")
    ⟨200, "resp"⟩ "neterr").2.2.2.2.2.2.1 "" "" rfl rfl

end Flow2API
